import Mathlib

/- Verification of the irradiance separation module (solar_separation.py).

   Shallow embedding conventions:
   - Python floats are modelled as real numbers.
   - The missing-value marker np.nan is modelled as `none` in `Option ℝ`;
     NaN-propagating float arithmetic is modelled by `olift1` and `olift2`,
     and NaN comparisons (always false in Python) by `isLT`, `isLE`, `isGE`.
   - numpy arrays and per-row loops are modelled as lists; an out-of-range
     index (IndexError) is modelled by an outer `none` layer.
   - The while-loop of the bisection solver is modelled with explicit fuel;
     the development proves the fuel is never exhausted. -/

open Real

open scoped Classical

noncomputable section

/-- Model of the Python builtin max applied as max(a, x) where x may be NaN:
    CPython keeps the first argument when the comparison x > a is false,
    which is the case when x is NaN. So max(0, nan) evaluates to 0. -/
def pyMax2 (a : ℝ) (x : Option ℝ) : Option ℝ :=
  match x with
  | none => some a
  | some v => some (max a v)

/-- NaN-propagating unary float operation. -/
def olift1 (g : ℝ → ℝ) : Option ℝ → Option ℝ
  | some v => some (g v)
  | none => none

/-- NaN-propagating binary float operation. -/
def olift2 (g : ℝ → ℝ → ℝ) : Option ℝ → Option ℝ → Option ℝ
  | some x, some y => some (g x y)
  | _, _ => none

/-- Python comparison x < c on a float that may be NaN: false when NaN. -/
def isLT (x : Option ℝ) (c : ℝ) : Prop := ∃ v, x = some v ∧ v < c

/-- Python comparison x <= c on a float that may be NaN: false when NaN. -/
def isLE (x : Option ℝ) (c : ℝ) : Prop := ∃ v, x = some v ∧ v ≤ c

/-- Python comparison x >= c on a float that may be NaN: false when NaN. -/
def isGE (x : Option ℝ) (c : ℝ) : Prop := ∃ v, x = some v ∧ c ≤ v

/-- Embeds func_TH (solar_separation.py lines 269-283):
    TH = IN0 * P**(1/Sinh) * Sinh + SH. -/
def func_TH (P IN0 Sinh SH : ℝ) : ℝ :=
  IN0 * P ^ (1 / Sinh) * Sinh + SH

/-- Embeds func_SH_Nagata (lines 289-302). -/
def func_SH_Nagata (P IN0 Sinh : ℝ) : ℝ :=
  IN0 * Sinh * (1 - P ^ (1 / Sinh)) * (0.66 - 0.32 * Sinh) * (0.5 + (0.4 - 0.3 * P) * Sinh)

/-- Embeds func_SH_Watanabe (lines 308-326); P is clamped to 1 from above
    before evaluation. -/
def func_SH_Watanabe (P IN0 Sinh : ℝ) : ℝ :=
  let Pc := if 1 ≤ P then 1 else P
  let Q := (0.8672 + 0.7505 * Sinh) * Pc ^ (0.421 * 1 / Sinh) * (1 - Pc ^ (1 / Sinh)) ^ (2.277 : ℝ)
  IN0 * Sinh * (Q / (1 + Q))

/-- Embeds func_DN (lines 332-344): DN = (TH - SH) / Sinh. -/
def func_DN (TH SH Sinh : ℝ) : ℝ := (TH - SH) / Sinh

/-- Embeds func_SH (lines 541-553): SH = TH - DN * Sinh. -/
def func_SH (TH DN Sinh : ℝ) : ℝ := TH - DN * Sinh

/-- Embeds func_KT (lines 437-450): KT = TH / (IN0 * Sinh). -/
def func_KT (TH IN0 Sinh : ℝ) : ℝ := TH / (IN0 * Sinh)

/-- Embeds func_SH_Erbs_1d_022 (lines 400-410). -/
def func_SH_Erbs_1d_022 (TH KT : ℝ) : ℝ := TH * (1 - 0.09 * KT)

/-- Embeds func_SH_Erbs_4d (lines 413-423). -/
def func_SH_Erbs_4d (TH KT : ℝ) : ℝ :=
  TH * (0.9511 - 0.1604 * KT + 4.388 * KT ^ 2 - 16.638 * KT ^ 3 + 12.336 * KT ^ 4)

/-- Embeds func_SH_Erbs_1d_080 (lines 426-434). -/
def func_SH_Erbs_1d_080 (TH : ℝ) : ℝ := 0.165 * TH

/-- Embeds func_DN_Udagawa_3d (lines 511-524). -/
def func_DN_Udagawa_3d (IN0 Sinh KT : ℝ) : ℝ :=
  IN0 * (2.277 - 1.258 * Sinh + 0.2396 * Sinh ^ 2) * KT ^ 3

/-- Embeds func_DN_Udagawa_1d (lines 527-538). -/
def func_DN_Udagawa_1d (IN0 KT : ℝ) : ℝ := IN0 * (-0.43 + 1.43 * KT)

/-- Outcome of one iteration of the while-loop in get_SH_core: a returned
    value, the np.nan non-convergence marker, or a continuation with a new
    bracket. -/
inductive BisectOut where
  | done (v : ℝ)
  | nanOut
  | cont (a b : ℝ)

/-- Embeds one iteration of the while-loop body of get_SH_core
    (lines 236-264), with LIMIT1 = 1e-5, LIMIT2 = 1e-10, P_min = 0,
    P_max = 0.85, P = (a+b)/2, SH = method_SH(P, IN0, Sinh),
    TH0 = func_TH(P, IN0, Sinh, SH). -/
def bisectStep (f : ℝ → ℝ → ℝ → ℝ) (TH Sinh IN0 a b : ℝ) : BisectOut :=
  if |func_TH ((a + b) / 2) IN0 Sinh (f ((a + b) / 2) IN0 Sinh) - TH| ≤ 1e-5 then
    BisectOut.done
      (min (if 0.85 ≤ (a + b) / 2 then f 0.85 IN0 Sinh else f ((a + b) / 2) IN0 Sinh) TH)
  else if 0.85 ≤ a then
    BisectOut.done (min (f 0.85 IN0 Sinh) TH)
  else if b ≤ 0 then
    BisectOut.done (min (f 0 IN0 Sinh) TH)
  else if (a + b) / 2 ≤ 1e-10 * 10 then
    BisectOut.done (min (f 0 IN0 Sinh) TH)
  else if |a - b| ≤ 1e-10 then
    BisectOut.nanOut
  else if func_TH ((a + b) / 2) IN0 Sinh (f ((a + b) / 2) IN0 Sinh) < TH then
    BisectOut.cont ((a + b) / 2) b
  else
    BisectOut.cont a ((a + b) / 2)

/-- Fueled unrolling of the while-loop of get_SH_core. The outer `none`
    means the fuel ran out, which is proved to never happen from the
    initial bracket; the inner `none` is the np.nan non-convergence
    marker of line 258. -/
def bisectLoop (f : ℝ → ℝ → ℝ → ℝ) (TH Sinh IN0 : ℝ) : ℕ → ℝ → ℝ → Option (Option ℝ)
  | 0, _, _ => none
  | fuel + 1, a, b =>
    match bisectStep f TH Sinh IN0 a b with
    | BisectOut.done v => some (some v)
    | BisectOut.nanOut => some none
    | BisectOut.cont a2 b2 => bisectLoop f TH Sinh IN0 fuel a2 b2

/-- Embeds get_SH_core (lines 207-266): bisection from the initial bracket
    a = 0, b = 1.2, returning the converged diffuse value or the np.nan
    marker. Fuel 36 is sufficient: the loop exits once |a-b| <= 1e-10 and
    the width starts at 1.2 and halves each iteration. -/
def get_SH_core (TH Sinh IN0 : ℝ) (f : ℝ → ℝ → ℝ → ℝ) : Option ℝ :=
  (bisectLoop f TH Sinh IN0 36 0 1.2).getD none

/-- Embeds the loop body of get_SH (lines 186-202) at one row:
    Sinh <= 0 gives 0; missing TH gives np.nan; otherwise
    max(0, get_SH_core(...)) with the Python max semantics of pyMax2. -/
def get_SH_row (th : Option ℝ) (Sinh IN0 : ℝ) (f : ℝ → ℝ → ℝ → ℝ) : Option ℝ :=
  if Sinh ≤ 0 then some 0
  else
    match th with
    | none => none
    | some t => pyMax2 0 (get_SH_core t Sinh IN0 f)

/-- Pointwise combination of three equal-length columns. -/
def zip3With (g : α → β → γ → δ) : List α → List β → List γ → List δ
  | a :: as, b :: bs, c :: cs => g a b c :: zip3With g as bs cs
  | _, _, _ => []

/-- Embeds get_SH (lines 168-204) over whole columns. -/
def get_SH_list (TH : List (Option ℝ)) (Sinh IN0 : List ℝ) (f : ℝ → ℝ → ℝ → ℝ) :
    List (Option ℝ) :=
  zip3With (fun t s i => get_SH_row t s i f) TH Sinh IN0

/-- Embeds the loop body of get_SH_Erbs (lines 369-395) at one row. -/
def get_SH_Erbs_row (th : Option ℝ) (IN0 Sinh : ℝ) : Option ℝ :=
  match th with
  | none => none
  | some t =>
    if t ≤ 0 then some 0
    else
      some
        (if min 1 (func_KT t IN0 Sinh) ≤ 0.22 then
          func_SH_Erbs_1d_022 t (min 1 (func_KT t IN0 Sinh))
        else if min 1 (func_KT t IN0 Sinh) ≤ 0.80 then
          func_SH_Erbs_4d t (min 1 (func_KT t IN0 Sinh))
        else
          func_SH_Erbs_1d_080 t)

/-- Embeds get_SH_Erbs (lines 350-397) over whole columns. -/
def get_SH_Erbs_list (TH : List (Option ℝ)) (IN0 Sinh : List ℝ) : List (Option ℝ) :=
  zip3With get_SH_Erbs_row TH IN0 Sinh

/-- Embeds the loop body of get_DN_Udagawa (lines 475-506) at one row. -/
def get_DN_Udagawa_row (th : Option ℝ) (IN0 Sinh : ℝ) : Option ℝ :=
  match th with
  | none => none
  | some t =>
    if t ≤ 0 then some 0
    else
      some
        (if min 1 (func_KT t IN0 Sinh) <
            (0.5163 + 0.333 * Sinh + 0.00803 * Sinh ^ 2) * IN0 * Sinh then
          max 0 (func_DN_Udagawa_3d IN0 Sinh (min 1 (func_KT t IN0 Sinh)))
        else
          max 0 (func_DN_Udagawa_1d IN0 (min 1 (func_KT t IN0 Sinh))))

/-- Embeds get_DN_Udagawa (lines 456-508) over whole columns. -/
def get_DN_Udagawa_list (TH : List (Option ℝ)) (IN0 Sinh : List ℝ) : List (Option ℝ) :=
  zip3With get_DN_Udagawa_row TH IN0 Sinh

/-- Embeds the masked assignment `df.loc[col <= 0, col] = 0` used by
    get_separate at lines 73 and 81: a present nonpositive value becomes
    0; NaN compares false and is left unchanged. -/
def floorNonpos (x : Option ℝ) : Option ℝ :=
  match x with
  | none => none
  | some v => if v ≤ 0 then some 0 else some v

/-- Embeds the DN derivation step of get_separate (lines 68-73) at one row:
    DN = func_DN(TH, SH, Sinh) followed by the nonpositive mask. -/
def derive_DN (th sh : Option ℝ) (Sinh : ℝ) : Option ℝ :=
  floorNonpos (olift2 (fun t s => func_DN t s Sinh) th sh)

/-- Embeds the SH derivation step of get_separate (lines 76-81) at one row:
    SH = func_SH(TH, DN, Sinh) followed by the nonpositive mask. -/
def derive_SH (th dn : Option ℝ) (Sinh : ℝ) : Option ℝ :=
  floorNonpos (olift2 (fun t d => func_SH t d Sinh) th dn)

/-- Row-level composition of get_separate for the Nagata and Watanabe
    branches (lines 32-45 then 68-73): SH from the solver, DN derived. -/
def nagwat_pair (f : ℝ → ℝ → ℝ → ℝ) (th : Option ℝ) (Sinh IN0 : ℝ) :
    Option ℝ × Option ℝ :=
  (derive_DN th (get_SH_row th Sinh IN0 f) Sinh, get_SH_row th Sinh IN0 f)

/-- Row-level composition of get_separate for the Erbs branch
    (lines 48-51 then 68-73). -/
def erbs_pair (th : Option ℝ) (IN0 Sinh : ℝ) : Option ℝ × Option ℝ :=
  (derive_DN th (get_SH_Erbs_row th IN0 Sinh) Sinh, get_SH_Erbs_row th IN0 Sinh)

/-- Row-level composition of get_separate for the Udagawa branch
    (lines 54-57 then 76-81): DN from the model, SH derived. -/
def udagawa_pair (th : Option ℝ) (IN0 Sinh : ℝ) : Option ℝ × Option ℝ :=
  (get_DN_Udagawa_row th IN0 Sinh, derive_SH th (get_DN_Udagawa_row th IN0 Sinh) Sinh)


/-- Embeds W_to_MJ (lines 820-828): W/m2 to MJ/m2h. -/
def W_to_MJ (W : ℝ) : ℝ := W * 3600 * 1e-6

/-- Embeds MJ_to_W (lines 831-839): MJ/m2h to W/m2. -/
def MJ_to_W (MJ : ℝ) : ℝ := MJ / (3600 * 1e-6)

/-- Embeds np.digitize(x, bins) for increasing bins: the number of bin
    thresholds that are less than or equal to x. A NaN argument lands past
    the last bin, giving bins.length, as numpy does. -/
def digitize (x : Option ℝ) (bins : List ℝ) : ℕ :=
  match x with
  | none => bins.length
  | some v => (bins.filter (fun b => b ≤ v)).length

/-- Threshold list KTBIN of get_DN_perez_core (line 863). -/
def KTBIN : List ℝ := [0.24, 0.4, 0.56, 0.7, 0.8]

/-- Threshold list ZBIN of get_DN_perez_core (line 864). -/
def ZBIN : List ℝ := [25.0, 40.0, 55.0, 70.0, 80.0]

/-- Threshold list DKTBIN of get_DN_perez_core (line 865). -/
def DKTBIN : List ℝ := [0.015, 0.035, 0.07, 0.15, 0.3]

/-- Threshold list WBIN of get_DN_perez_core (line 866). -/
def WBIN : List ℝ := [1, 2.0, 3.0]

/-- Embeds the flat coefficient list CM of get_CM (lines 556-817), in the
    source order, before the (6, 6, 7, 5) reshape. -/
def CMflat : List ℝ := [
  0.385230, 0.385230, 0.385230, 0.462880, 0.317440,
  0.338390, 0.338390, 0.221270, 0.316730, 0.503650,
  0.235680, 0.235680, 0.241280, 0.157830, 0.269440,
  0.830130, 0.830130, 0.171970, 0.841070, 0.457370,
  0.548010, 0.548010, 0.478000, 0.966880, 1.036370,
  0.548010, 0.548010, 1.000000, 3.012370, 1.976540,
  0.582690, 0.582690, 0.229720, 0.892710, 0.569950,
  0.131280, 0.131280, 0.385460, 0.511070, 0.127940,
  0.223710, 0.223710, 0.193560, 0.304560, 0.193940,
  0.229970, 0.229970, 0.275020, 0.312730, 0.244610,
  0.090100, 0.184580, 0.260500, 0.687480, 0.579440,
  0.131530, 0.131530, 0.370190, 1.380350, 1.052270,
  1.116250, 1.116250, 0.928030, 3.525490, 2.316920,
  0.090100, 0.237000, 0.300040, 0.812470, 0.664970,
  0.587510, 0.130000, 0.400000, 0.537210, 0.832490,
  0.306210, 0.129830, 0.204460, 0.500000, 0.681640,
  0.224020, 0.260620, 0.334080, 0.501040, 0.350470,
  0.421540, 0.753970, 0.750660, 3.706840, 0.983790,
  0.706680, 0.373530, 1.245670, 0.864860, 1.992630,
  4.864400, 0.117390, 0.265180, 0.359180, 3.310820,
  0.392080, 0.493290, 0.651560, 1.932780, 0.898730,
  0.126970, 0.126970, 0.126970, 0.126970, 0.126970,
  0.810820, 0.810820, 0.810820, 0.810820, 0.810820,
  3.241680, 2.500000, 2.291440, 2.291440, 2.291440,
  4.000000, 3.000000, 2.000000, 0.975430, 1.965570,
  12.494170, 12.494170, 8.000000, 5.083520, 8.792390,
  21.744240, 21.744240, 21.744240, 21.744240, 21.744240,
  3.241680, 12.494170, 1.620760, 1.375250, 2.331620,
  0.126970, 0.126970, 0.126970, 0.126970, 0.126970,
  0.810820, 0.810820, 0.810820, 0.810820, 0.810820,
  3.241680, 2.500000, 2.291440, 2.291440, 2.291440,
  4.000000, 3.000000, 2.000000, 0.975430, 1.965570,
  12.494170, 12.494170, 8.000000, 5.083520, 8.792390,
  21.744240, 21.744240, 21.744240, 21.744240, 21.744240,
  3.241680, 12.494170, 1.620760, 1.375250, 2.331620,
  0.126970, 0.126970, 0.126970, 0.126970, 0.126970,
  0.810820, 0.810820, 0.810820, 0.810820, 0.810820,
  3.241680, 2.500000, 2.291440, 2.291440, 2.291440,
  4.000000, 3.000000, 2.000000, 0.975430, 1.965570,
  12.494170, 12.494170, 8.000000, 5.083520, 8.792390,
  21.744240, 21.744240, 21.744240, 21.744240, 21.744240,
  3.241680, 12.494170, 1.620760, 1.375250, 2.331620,
  0.337440, 0.337440, 0.969110, 1.097190, 1.116080,
  0.337440, 0.337440, 0.969110, 1.116030, 0.623900,
  0.337440, 0.337440, 1.530590, 1.024420, 0.908480,
  0.584040, 0.584040, 0.847250, 0.914940, 1.289300,
  0.337440, 0.337440, 0.310240, 1.435020, 1.852830,
  0.337440, 0.337440, 1.015010, 1.097190, 2.117230,
  0.337440, 0.337440, 0.969110, 1.145730, 1.476400,
  0.300000, 0.300000, 0.700000, 1.100000, 0.796940,
  0.219870, 0.219870, 0.526530, 0.809610, 0.649300,
  0.386650, 0.386650, 0.119320, 0.576120, 0.685460,
  0.746730, 0.399830, 0.470970, 0.986530, 0.785370,
  0.575420, 0.936700, 1.649200, 1.495840, 1.335590,
  1.319670, 4.002570, 1.276390, 2.644550, 2.518670,
  0.665190, 0.678910, 1.012360, 1.199940, 0.986580,
  0.378870, 0.974060, 0.500000, 0.491880, 0.665290,
  0.105210, 0.263470, 0.407040, 0.553460, 0.582590,
  0.312900, 0.345240, 1.144180, 0.854790, 0.612280,
  0.119070, 0.365120, 0.560520, 0.793720, 0.802600,
  0.781610, 0.837390, 1.270420, 1.537980, 1.292950,
  1.152290, 1.152290, 1.492080, 1.245370, 2.177100,
  0.424660, 0.529550, 0.966910, 1.033460, 0.958730,
  0.310590, 0.714410, 0.252450, 0.500000, 0.607600,
  0.975190, 0.363420, 0.500000, 0.400000, 0.502800,
  0.175580, 0.196250, 0.476360, 1.072470, 0.490510,
  0.719280, 0.698620, 0.657770, 1.190840, 0.681110,
  0.426240, 1.464840, 0.678550, 1.157730, 0.978430,
  2.501120, 1.789130, 1.387090, 2.394180, 2.394180,
  0.491640, 0.677610, 0.685610, 1.082400, 0.735410,
  0.597000, 0.500000, 0.300000, 0.310050, 0.413510,
  0.314790, 0.336310, 0.400000, 0.400000, 0.442460,
  0.166510, 0.460440, 0.552570, 1.000000, 0.461610,
  0.401020, 0.559110, 0.403630, 1.016710, 0.671490,
  0.400360, 0.750830, 0.842640, 1.802600, 1.023830,
  3.315300, 1.510380, 2.443650, 1.638820, 2.133990,
  0.530790, 0.745850, 0.693050, 1.458040, 0.804500,
  0.597000, 0.500000, 0.300000, 0.310050, 0.800920,
  0.314790, 0.336310, 0.400000, 0.400000, 0.237040,
  0.166510, 0.460440, 0.552570, 1.000000, 0.581990,
  0.401020, 0.559110, 0.403630, 1.016710, 0.898570,
  0.400360, 0.750830, 0.842640, 1.802600, 3.400390,
  3.315300, 1.510380, 2.443650, 1.638820, 2.508780,
  0.204340, 1.157740, 2.003080, 2.622080, 1.409380,
  1.242210, 1.242210, 1.242210, 1.242210, 1.242210,
  0.056980, 0.056980, 0.656990, 0.656990, 0.925160,
  0.089090, 0.089090, 1.040430, 1.232480, 1.205300,
  1.053850, 1.053850, 1.399690, 1.084640, 1.233340,
  1.151540, 1.151540, 1.118290, 1.531640, 1.411840,
  1.494980, 1.494980, 1.700000, 1.800810, 1.671600,
  1.018450, 1.018450, 1.153600, 1.321890, 1.294670,
  0.700000, 0.700000, 1.023460, 0.700000, 0.945830,
  0.886300, 0.886300, 1.333620, 0.800000, 1.066620,
  0.902180, 0.902180, 0.954330, 1.126690, 1.097310,
  1.095300, 1.075060, 1.176490, 1.139470, 1.096110,
  1.201660, 1.201660, 1.438200, 1.256280, 1.198060,
  1.525850, 1.525850, 1.869160, 1.985410, 1.911590,
  1.288220, 1.082810, 1.286370, 1.166170, 1.119330,
  0.600000, 1.029910, 0.859890, 0.550000, 0.813600,
  0.604450, 1.029910, 0.859890, 0.656700, 0.928840,
  0.455850, 0.750580, 0.804930, 0.823000, 0.911000,
  0.526580, 0.932310, 0.908620, 0.983520, 0.988090,
  1.036110, 1.100690, 0.848380, 1.035270, 1.042380,
  1.048440, 1.652720, 0.900000, 2.350410, 1.082950,
  0.817410, 0.976160, 0.861300, 0.974780, 1.004580,
  0.782110, 0.564280, 0.600000, 0.600000, 0.665740,
  0.894480, 0.680730, 0.541990, 0.800000, 0.669140,
  0.487460, 0.818950, 0.841830, 0.872540, 0.709040,
  0.709310, 0.872780, 0.908480, 0.953290, 0.844350,
  0.863920, 0.947770, 0.876220, 1.078750, 0.936910,
  1.280350, 0.866720, 0.769790, 1.078750, 0.975130,
  0.725420, 0.869970, 0.868810, 0.951190, 0.829220,
  0.791750, 0.654040, 0.483170, 0.409000, 0.597180,
  0.566140, 0.948990, 0.971820, 0.653570, 0.718550,
  0.648710, 0.637730, 0.870510, 0.860600, 0.694300,
  0.637630, 0.767610, 0.925670, 0.990310, 0.847670,
  0.736380, 0.946060, 1.117590, 1.029340, 0.947020,
  1.180970, 0.850000, 1.050000, 0.950000, 0.888580,
  0.700560, 0.801440, 0.961970, 0.906140, 0.823880,
  0.500000, 0.500000, 0.586770, 0.470550, 0.629790,
  0.500000, 0.500000, 1.056220, 1.260140, 0.658140,
  0.500000, 0.500000, 0.631830, 0.842620, 0.582780,
  0.554710, 0.734730, 0.985820, 0.915640, 0.898260,
  0.712510, 1.205990, 0.909510, 1.078260, 0.885610,
  1.899260, 1.559710, 1.000000, 1.150000, 1.120390,
  0.653880, 0.793120, 0.903320, 0.944070, 0.796130,
  1.000000, 1.000000, 1.050000, 1.170380, 1.178090,
  0.960580, 0.960580, 1.059530, 1.179030, 1.131690,
  0.871470, 0.871470, 0.995860, 1.141910, 1.114600,
  1.201590, 1.201590, 0.993610, 1.109380, 1.126320,
  1.065010, 1.065010, 0.828660, 0.939970, 1.017930,
  1.065010, 1.065010, 0.623690, 1.119620, 1.132260,
  1.071570, 1.071570, 0.958070, 1.114130, 1.127110,
  0.950000, 0.973390, 0.852520, 1.092200, 1.096590,
  0.804120, 0.913870, 0.980990, 1.094580, 1.042420,
  0.737540, 0.935970, 0.999940, 1.056490, 1.050060,
  1.032980, 1.034540, 0.968460, 1.032080, 1.015780,
  0.900000, 0.977210, 0.945960, 1.008840, 0.969960,
  0.600000, 0.750000, 0.750000, 0.844710, 0.899100,
  0.926800, 0.965030, 0.968520, 1.044910, 1.032310,
  0.850000, 1.029710, 0.961100, 1.055670, 1.009700,
  0.818530, 0.960010, 0.996450, 1.081970, 1.036470,
  0.765380, 0.953500, 0.948260, 1.052110, 1.000140,
  0.775610, 0.909610, 0.927800, 0.987800, 0.952100,
  1.000990, 0.881880, 0.875950, 0.949100, 0.893690,
  0.902370, 0.875960, 0.807990, 0.942410, 0.917920,
  0.856580, 0.928270, 0.946820, 1.032260, 0.972990,
  0.750000, 0.857930, 0.983800, 1.056540, 0.980240,
  0.750000, 0.987010, 1.013730, 1.133780, 1.038250,
  0.800000, 0.947380, 1.012380, 1.091270, 0.999840,
  0.800000, 0.914550, 0.908570, 0.999190, 0.915230,
  0.778540, 0.800590, 0.799070, 0.902180, 0.851560,
  0.680190, 0.317410, 0.507680, 0.388910, 0.646710,
  0.794920, 0.912780, 0.960830, 1.057110, 0.947950,
  0.750000, 0.833890, 0.867530, 1.059890, 0.932840,
  0.979700, 0.971470, 0.995510, 1.068490, 1.030150,
  0.858850, 0.987920, 1.043220, 1.108700, 1.044900,
  0.802400, 0.955110, 0.911660, 1.045070, 0.944470,
  0.884890, 0.766210, 0.885390, 0.859070, 0.818190,
  0.615680, 0.700000, 0.850000, 0.624620, 0.669300,
  0.835570, 0.946150, 0.977090, 1.049350, 0.979970,
  0.689220, 0.809600, 0.900000, 0.789500, 0.853990,
  0.854660, 0.852840, 0.938200, 0.923110, 0.955010,
  0.938600, 0.932980, 1.010390, 1.043950, 1.041640,
  0.843620, 0.981300, 0.951590, 0.946100, 0.966330,
  0.694740, 0.814690, 0.572650, 0.400000, 0.726830,
  0.211370, 0.671780, 0.416340, 0.297290, 0.498050,
  0.843540, 0.882330, 0.911760, 0.898420, 0.960210,
  1.054880, 1.075210, 1.068460, 1.153370, 1.069220,
  1.000000, 1.062220, 1.013470, 1.088170, 1.046200,
  0.885090, 0.993530, 0.942590, 1.054990, 1.012740,
  0.920000, 0.950000, 0.978720, 1.020280, 0.984440,
  0.850000, 0.908500, 0.839940, 0.985570, 0.962180,
  0.800000, 0.800000, 0.810080, 0.950000, 0.961550,
  1.038590, 1.063200, 1.034440, 1.112780, 1.037800,
  1.017610, 1.028360, 1.058960, 1.133180, 1.045620,
  0.920000, 0.998970, 1.033590, 1.089030, 1.022060,
  0.912370, 0.949930, 0.979770, 1.020420, 0.981770,
  0.847160, 0.935300, 0.930540, 0.955050, 0.946560,
  0.880260, 0.867110, 0.874130, 0.972650, 0.883420,
  0.627150, 0.627150, 0.700000, 0.774070, 0.845130,
  0.973700, 1.006240, 1.026190, 1.071960, 1.017240,
  1.028710, 1.017570, 1.025900, 1.081790, 1.024240,
  0.924980, 0.985500, 1.014100, 1.092210, 0.999610,
  0.828570, 0.934920, 0.994950, 1.024590, 0.949710,
  0.900810, 0.901330, 0.928830, 0.979570, 0.913100,
  0.761030, 0.845150, 0.805360, 0.936790, 0.853460,
  0.626400, 0.546750, 0.730500, 0.850000, 0.689050,
  0.957630, 0.985480, 0.991790, 1.050220, 0.987900,
  0.992730, 0.993880, 1.017150, 1.059120, 1.017450,
  0.975610, 0.987160, 1.026820, 1.075440, 1.007250,
  0.871090, 0.933190, 0.974690, 0.979840, 0.952730,
  0.828750, 0.868090, 0.834920, 0.905510, 0.871530,
  0.781540, 0.782470, 0.767910, 0.764140, 0.795890,
  0.743460, 0.693390, 0.514870, 0.630150, 0.715660,
  0.934760, 0.957870, 0.959640, 0.972510, 0.981640,
  0.965840, 0.941240, 0.987100, 1.022540, 1.011160,
  0.988630, 0.994770, 0.976590, 0.950000, 1.034840,
  0.958200, 1.018080, 0.974480, 0.920000, 0.989870,
  0.811720, 0.869090, 0.812020, 0.850000, 0.821050,
  0.682030, 0.679480, 0.632450, 0.746580, 0.738550,
  0.668290, 0.445860, 0.500000, 0.678920, 0.696510,
  0.926940, 0.953350, 0.959050, 0.876210, 0.991490,
  0.948940, 0.997760, 0.850000, 0.826520, 0.998470,
  1.017860, 0.970000, 0.850000, 0.700000, 0.988560,
  1.000000, 0.950000, 0.850000, 0.606240, 0.947260,
  1.000000, 0.746140, 0.751740, 0.598390, 0.725230,
  0.922210, 0.500000, 0.376800, 0.517110, 0.548630,
  0.500000, 0.450000, 0.429970, 0.404490, 0.539940,
  0.960430, 0.881630, 0.775640, 0.596350, 0.937680,
  1.030000, 1.040000, 1.000000, 1.000000, 1.049510,
  1.050000, 0.990000, 0.990000, 0.950000, 0.996530,
  1.050000, 0.990000, 0.990000, 0.820000, 0.971940,
  1.050000, 0.790000, 0.880000, 0.820000, 0.951840,
  1.000000, 0.530000, 0.440000, 0.710000, 0.928730,
  0.540000, 0.470000, 0.500000, 0.550000, 0.773950,
  1.038270, 0.920180, 0.910930, 0.821140, 1.034560,
  1.041020, 0.997520, 0.961600, 1.000000, 1.035780,
  0.948030, 0.980000, 0.900000, 0.950360, 0.977460,
  0.950000, 0.977250, 0.869270, 0.800000, 0.951680,
  0.951870, 0.850000, 0.748770, 0.700000, 0.883850,
  0.900000, 0.823190, 0.727450, 0.600000, 0.839870,
  0.850000, 0.805020, 0.692310, 0.500000, 0.788410,
  1.010090, 0.895270, 0.773030, 0.816280, 1.011680,
  1.022450, 1.004600, 0.983650, 1.000000, 1.032940,
  0.943960, 0.999240, 0.983920, 0.905990, 0.978150,
  0.936240, 0.946480, 0.850000, 0.850000, 0.930320,
  0.816420, 0.885000, 0.644950, 0.817650, 0.865310,
  0.742960, 0.765690, 0.561520, 0.700000, 0.827140,
  0.643870, 0.596710, 0.474460, 0.600000, 0.651200,
  0.971740, 0.940560, 0.714880, 0.864380, 1.001650,
  0.995260, 0.977010, 1.000000, 1.000000, 1.035250,
  0.939810, 0.975250, 0.939980, 0.950000, 0.982550,
  0.876870, 0.879440, 0.850000, 0.900000, 0.917810,
  0.873480, 0.873450, 0.751470, 0.850000, 0.863040,
  0.761470, 0.702360, 0.638770, 0.750000, 0.783120,
  0.734080, 0.650000, 0.600000, 0.650000, 0.715660,
  0.942160, 0.919100, 0.770340, 0.731170, 0.995180,
  0.952560, 0.916780, 0.920000, 0.900000, 1.005880,
  0.928620, 0.994420, 0.900000, 0.900000, 0.983720,
  0.913070, 0.850000, 0.850000, 0.800000, 0.924280,
  0.868090, 0.807170, 0.823550, 0.600000, 0.844520,
  0.769570, 0.719870, 0.650000, 0.550000, 0.733500,
  0.580250, 0.650000, 0.600000, 0.500000, 0.628850,
  0.904770, 0.852650, 0.708370, 0.493730, 0.949030,
  0.911970, 0.800000, 0.800000, 0.800000, 0.956320,
  0.912620, 0.682610, 0.750000, 0.700000, 0.950110,
  0.653450, 0.659330, 0.700000, 0.600000, 0.856110,
  0.648440, 0.600000, 0.641120, 0.500000, 0.695780,
  0.570000, 0.550000, 0.598800, 0.40000, 0.560150,
  0.475230, 0.500000, 0.518640, 0.339970, 0.520230,
  0.743440, 0.592190, 0.603060, 0.316930, 0.794390]

/-- Embeds the numpy lookup CM[I, J, K, L] on the (6, 6, 7, 5) reshape of
    CMflat (line 817): in-bounds indices select the row-major flat entry,
    out-of-bounds indices raise IndexError, modelled as none. -/
def CMlookup (I J K L : ℕ) : Option ℝ :=
  if I < 6 ∧ J < 6 ∧ K < 7 ∧ L < 5 then
    CMflat.get? (I * 210 + J * 35 + K * 5 + L)
  else none

/-- Embeds the mask `h_deg[h_deg < 0] = np.nan` (line 881) at one entry. -/
def nanIfNeg (x : Option ℝ) : Option ℝ :=
  match x with
  | none => none
  | some v => if v < 0 then none else some v

/-- Embeds get_DN_perez_core (lines 842-962). The three-entry window arrays
    G_mj and h_deg are passed as scalar triples (previous, current, next);
    a missing entry is none. The result is layered: the outer none models
    an IndexError in the CM lookup, the inner none a NaN output. -/
def get_DN_perez_core (G0m G1m G2m h0 h1 h2 TD : Option ℝ) (ALT IN0 : ℝ) :
    Option (Option ℝ) :=
  match G1m with
  | none => some (some 0)
  | some g1m =>
    if MJ_to_W g1m < 1 then some (some 0)
    else if isLE h1 0 then some (some 0)
    else
      let IOw := MJ_to_W IN0
      let Z0 := olift1 (fun x => 90 - x) (nanIfNeg h0)
      let Z1 := olift1 (fun x => 90 - x) (nanIfNeg h1)
      let Z2 := olift1 (fun x => 90 - x) (nanIfNeg h2)
      let cz0 := olift1 (fun z => Real.cos (z * (Real.pi / 180))) Z0
      let cz1 := olift1 (fun z => Real.cos (z * (Real.pi / 180))) Z1
      let cz2 := olift1 (fun z => Real.cos (z * (Real.pi / 180))) Z2
      let CZ0 := olift1 (fun c => if c ≤ 6.5e-2 then 6.5e-2 else c) cz0
      let CZ1 := olift1 (fun c => if c ≤ 6.5e-2 then 6.5e-2 else c) cz1
      let CZ2 := olift1 (fun c => if c ≤ 6.5e-2 then 6.5e-2 else c) cz2
      let KT0 := olift2 (fun g cz => g / (IOw * cz)) (olift1 MJ_to_W G0m) CZ0
      let KT1c := olift1 (fun cz => MJ_to_W g1m / (IOw * cz)) CZ1
      let KT2 := olift2 (fun g cz => g / (IOw * cz)) (olift1 MJ_to_W G2m) CZ2
      let AM0 := olift2 (fun cz z =>
        let am := 1 / (cz + 0.15 * (93.9 - z) ^ (-1.253 : ℝ))
        if 15.25 ≤ am then 15.25 else am) CZ0 Z0
      let AM1 := olift2 (fun cz z =>
        let am := 1 / (cz + 0.15 * (93.9 - z) ^ (-1.253 : ℝ))
        if 15.25 ≤ am then 15.25 else am) CZ1 Z1
      let AM2 := olift2 (fun cz z =>
        let am := 1 / (cz + 0.15 * (93.9 - z) ^ (-1.253 : ℝ))
        if 15.25 ≤ am then 15.25 else am) CZ2 Z2
      let KT1fac := fun (kt am : ℝ) =>
        kt / (1.031 * Real.exp (-1.4 / (0.9 + 9.4 / (am * Real.exp (-0.0001184 * ALT)))) + 0.1)
      let KT1_0 := if isLT cz0 0 then none else olift2 KT1fac KT0 AM0
      let KT1_1 := if isLT cz1 0 then none else olift2 KT1fac KT1c AM1
      let KT1_2 := if isLT cz2 0 then none else olift2 KT1fac KT2 AM2
      let KT1m0 := if G0m = none ∨ Z0 = none then none else KT1_0
      let KT1m2 := if G2m = none ∨ Z2 = none then none else KT1_2
      if isLT CZ1 0 then some (some 0)
      else
        let Acoef := if isLE KT1c 0.6 then
            olift1 (fun k => 0.512 - 1.56 * k + 2.286 * k ^ 2 - 2.22 * k ^ 3) KT1c
          else
            olift1 (fun k => -5.743 + 21.77 * k - 27.49 * k ^ 2 + 11.56 * k ^ 3) KT1c
        let Bcoef := if isLE KT1c 0.6 then
            olift1 (fun k => 0.37 + 0.962 * k) KT1c
          else
            olift1 (fun k => 41.40 - 118.5 * k + 66.05 * k ^ 2 + 31.9 * k ^ 3) KT1c
        let Ccoef := if isLE KT1c 0.6 then
            olift1 (fun k => -0.28 + 0.932 * k - 2.048 * k ^ 2) KT1c
          else
            olift1 (fun k => -47.01 + 184.2 * k - 222.0 * k ^ 2 + 73.81 * k ^ 3) KT1c
        let KNC := olift1 (fun am =>
          0.866 - 0.122 * am + 0.0121 * am ^ 2 - 0.000653 * am ^ 3 + 0.000014 * am ^ 4) AM1
        let BMAX : Option ℝ :=
          match Acoef, Bcoef, Ccoef, KNC, AM1 with
          | some a, some b, some c, some knc, some am =>
            some (IOw * (knc - (a + b * Real.exp (c * am))))
          | _, _, _, _, _ => none
        let K : ℕ :=
          if KT1m0 = none ∧ KT1m2 = none then 6
          else
            digitize
              (if KT1m0 = none ∨ isGE Z0 85.0 then
                olift2 (fun x y => |x - y|) KT1m2 KT1_1
              else if KT1m2 = none ∨ isGE Z2 85.0 then
                olift2 (fun x y => |x - y|) KT1_1 KT1m0
              else
                match KT1m0, KT1_1, KT1m2 with
                | some k0, some k1, some k2 => some (0.5 * (|k1 - k0| + |k2 - k1|))
                | _, _, _ => none)
              DKTBIN
        let I := digitize KT1_1 KTBIN
        let J := digitize Z1 ZBIN
        let L : ℕ :=
          match TD with
          | none => 4
          | some td => digitize (some (Real.exp (-0.075 + 0.07 * td))) WBIN
        match CMlookup I J K L with
        | none => none
        | some cm =>
          match BMAX with
          | none => some none
          | some bm => some (some (W_to_MJ (if bm * cm < 0 then 0 else bm * cm)))

/-- Embeds the construction of the three-entry irradiance window G of
    get_DN_perez (lines 973-984): the boundary rows substitute np.nan for
    the absent neighbour; an out-of-range access is none. -/
def windowG (TH : List (Option ℝ)) (i : ℕ) : Option (Option ℝ × Option ℝ × Option ℝ) :=
  if i = 0 then
    match TH.get? i, TH.get? (i + 1) with
    | some c, some n => some (none, c, n)
    | _, _ => none
  else if i = TH.length - 1 then
    match TH.get? (i - 1), TH.get? i with
    | some p, some c => some (p, c, none)
    | _, _ => none
  else
    match TH.get? (i - 1), TH.get? i, TH.get? (i + 1) with
    | some p, some c, some n => some (p, c, n)
    | _, _, _ => none

/-- Embeds the construction of the three-entry altitude window H of
    get_DN_perez (lines 973-984); the branch on the row position is taken
    on the length n of the irradiance column, as in the source. -/
def windowH (h : List ℝ) (n i : ℕ) : Option (Option ℝ × Option ℝ × Option ℝ) :=
  if i = 0 then
    match h.get? i, h.get? (i + 1) with
    | some c, some nx => some (none, some c, some nx)
    | _, _ => none
  else if i = n - 1 then
    match h.get? (i - 1), h.get? i with
    | some p, some c => some (some p, some c, none)
    | _, _ => none
  else
    match h.get? (i - 1), h.get? i, h.get? (i + 1) with
    | some p, some c, some nx => some (some p, some c, some nx)
    | _, _, _ => none

/-- Embeds one iteration of the loop of get_DN_perez (lines 973-996):
    the windows are built first, then a missing current TH yields np.nan
    without calling the core. An outer none is an IndexError. -/
def perez_row (TH : List (Option ℝ)) (h : List ℝ) (TD : List (Option ℝ)) (ALT : ℝ)
    (IN0 : List ℝ) (i : ℕ) : Option (Option ℝ) :=
  match windowG TH i, windowH h TH.length i, TH.get? i, TD.get? i, IN0.get? i with
  | some G, some H, some thi, some td, some in0 =>
    match thi with
    | none => some none
    | some _ => get_DN_perez_core G.1 G.2.1 G.2.2 H.1 H.2.1 H.2.2 td ALT in0
  | _, _, _, _, _ => none

/-- Sequences the per-row Perez results over a list of row indices,
    propagating an IndexError from any row. -/
def perez_go (TH : List (Option ℝ)) (h : List ℝ) (TD : List (Option ℝ)) (ALT : ℝ)
    (IN0 : List ℝ) : List ℕ → Option (List (Option ℝ))
  | [] => some []
  | i :: rest =>
    match perez_row TH h TD ALT IN0 i, perez_go TH h TD ALT IN0 rest with
    | some r, some rs => some (r :: rs)
    | _, _ => none

/-- Embeds get_DN_perez (lines 965-998) over whole columns. -/
def get_DN_perez_list (TH : List (Option ℝ)) (h : List ℝ) (TD : List (Option ℝ))
    (ALT : ℝ) (IN0 : List ℝ) : Option (List (Option ℝ)) :=
  perez_go TH h TD ALT IN0 (List.range TH.length)

/-- Observable outcome of get_separate (lines 9-91) for one irradiance
    column: either the added pair of derived columns (DN, SH), or no
    separation columns at all. -/
inductive SepOut where
  | pair (DN SH : List (Option ℝ))
  | nothing

/-- Embeds the dispatch of get_separate (lines 29-91) for one irradiance
    column. The result is layered: the outer none models an IndexError
    raised inside the Perez branch. An unrecognized mode string falls
    through every branch and produces no separation columns. -/
def get_separate_cols (mode : String) (TH : List (Option ℝ)) (h Sinh IN0 : List ℝ)
    (DT : List (Option ℝ)) (ALT : ℝ) : Option SepOut :=
  if mode = "Nagata" ∨ mode = "Watanabe" then
    let f := if mode = "Nagata" then func_SH_Nagata else func_SH_Watanabe
    let sh := get_SH_list TH Sinh IN0 f
    some (SepOut.pair (zip3With derive_DN TH sh Sinh) sh)
  else if mode = "Erbs" then
    let sh := get_SH_Erbs_list TH IN0 Sinh
    some (SepOut.pair (zip3With derive_DN TH sh Sinh) sh)
  else if mode = "Udagawa" then
    let dn := get_DN_Udagawa_list TH IN0 Sinh
    some (SepOut.pair dn (zip3With derive_SH TH dn Sinh))
  else if mode = "Perez" then
    match get_DN_perez_list TH h DT ALT IN0 with
    | none => none
    | some dn => some (SepOut.pair dn (zip3With derive_SH TH dn Sinh))
  else some SepOut.nothing


lemma bisectLoop_succ (f : ℝ → ℝ → ℝ → ℝ) (TH Sinh IN0 : ℝ) (n : ℕ) (a b : ℝ) :
    bisectLoop f TH Sinh IN0 (n + 1) a b =
      match bisectStep f TH Sinh IN0 a b with
      | BisectOut.done v => some (some v)
      | BisectOut.nanOut => some none
      | BisectOut.cont a2 b2 => bisectLoop f TH Sinh IN0 n a2 b2 := rfl

lemma bisectStep_shape (f : ℝ → ℝ → ℝ → ℝ) (TH Sinh IN0 a b : ℝ) :
    (∃ v, bisectStep f TH Sinh IN0 a b = BisectOut.done v) ∨
    bisectStep f TH Sinh IN0 a b = BisectOut.nanOut ∨
    (1e-10 < |a - b| ∧
      (bisectStep f TH Sinh IN0 a b = BisectOut.cont ((a + b) / 2) b ∨
       bisectStep f TH Sinh IN0 a b = BisectOut.cont a ((a + b) / 2))) := by
  unfold bisectStep
  by_cases h1 : |func_TH ((a + b) / 2) IN0 Sinh (f ((a + b) / 2) IN0 Sinh) - TH| ≤ 1e-5
  · rw [if_pos h1]; exact Or.inl ⟨_, rfl⟩
  rw [if_neg h1]
  by_cases h2 : (0.85 : ℝ) ≤ a
  · rw [if_pos h2]; exact Or.inl ⟨_, rfl⟩
  rw [if_neg h2]
  by_cases h3 : b ≤ (0 : ℝ)
  · rw [if_pos h3]; exact Or.inl ⟨_, rfl⟩
  rw [if_neg h3]
  by_cases h4 : (a + b) / 2 ≤ 1e-10 * 10
  · rw [if_pos h4]; exact Or.inl ⟨_, rfl⟩
  rw [if_neg h4]
  by_cases h5 : |a - b| ≤ 1e-10
  · rw [if_pos h5]; exact Or.inr (Or.inl rfl)
  rw [if_neg h5]
  by_cases h6 : func_TH ((a + b) / 2) IN0 Sinh (f ((a + b) / 2) IN0 Sinh) < TH
  · rw [if_pos h6]; exact Or.inr (Or.inr ⟨not_le.mp h5, Or.inl rfl⟩)
  · rw [if_neg h6]; exact Or.inr (Or.inr ⟨not_le.mp h5, Or.inr rfl⟩)

lemma bisectLoop_isSome (f : ℝ → ℝ → ℝ → ℝ) (TH Sinh IN0 : ℝ) :
    ∀ (n : ℕ) (a b : ℝ), a < b → b - a ≤ 1e-10 * 2 ^ n →
      (bisectLoop f TH Sinh IN0 (n + 1) a b).isSome := by
  intro n
  induction n with
  | zero =>
    intro a b hab hw
    rw [bisectLoop_succ]
    rcases bisectStep_shape f TH Sinh IN0 a b with ⟨v, hv⟩ | h | ⟨hgt, _⟩
    · rw [hv]; rfl
    · rw [h]; rfl
    · exfalso
      rw [abs_sub_comm, abs_of_pos (by linarith)] at hgt
      rw [pow_zero, mul_one] at hw
      linarith
  | succ n ih =>
    intro a b hab hw
    rw [bisectLoop_succ]
    rcases bisectStep_shape f TH Sinh IN0 a b with ⟨v, hv⟩ | h | ⟨hgt, hc | hc⟩
    · rw [hv]; rfl
    · rw [h]; rfl
    · rw [hc]
      exact ih ((a + b) / 2) b (by linarith) (by rw [pow_succ] at hw; linarith)
    · rw [hc]
      exact ih a ((a + b) / 2) (by linarith) (by rw [pow_succ] at hw; linarith)

/-- C7: for every pluggable diffuse model and all inputs (in particular all
    calls with Sinh > 0 and finite TH, IN0), the while-loop of get_SH_core
    terminates from the initial bracket [0, 1.2]: a fuel of 36 iterations is
    never exhausted, matching the bound obtained by halving the 1.2-wide
    bracket until its width is at most 1e-10 (about 35 halvings). -/
theorem get_SH_core_loop_terminates (f : ℝ → ℝ → ℝ → ℝ) (TH Sinh IN0 : ℝ) :
    (bisectLoop f TH Sinh IN0 36 0 1.2).isSome :=
  bisectLoop_isSome f TH Sinh IN0 35 0 1.2 (by norm_num) (by norm_num)

/-- C3 (actual code behaviour, refuting the claim): whenever TH is present
    and Sinh > 0, the batch value of get_SH at the row is never the missing
    marker, whatever get_SH_core returns. The wrapper computes
    max(0, get_SH_core(...)), and the Python builtin max returns its first
    argument 0 when its second argument is NaN, so the np.nan
    non-convergence marker of get_SH_core does not survive the wrapper. -/
theorem get_SH_row_never_missing (f : ℝ → ℝ → ℝ → ℝ) (t Sinh IN0 : ℝ)
    (h : 0 < Sinh) :
    (get_SH_row (some t) Sinh IN0 f).isSome ∧ pyMax2 0 none = some 0 := by
  constructor
  · unfold get_SH_row
    rw [if_neg (not_le.mpr h)]
    show (pyMax2 0 (get_SH_core t Sinh IN0 f)).isSome
    cases hc : get_SH_core t Sinh IN0 f
    · simp [pyMax2]
    · simp [pyMax2]
  · rfl

/-- Witness for the C3 theorem at a concrete row. -/
theorem get_SH_row_never_missing_witness :
    (0 : ℝ) < 1 ∧
      ((get_SH_row (some 0.6) 1 1 (fun _ _ _ => 0)).isSome ∧ pyMax2 0 none = some 0) :=
  ⟨by norm_num, get_SH_row_never_missing (fun _ _ _ => 0) 0.6 1 1 (by norm_num)⟩


/-- C5: on every iteration of the get_SH_core loop the exit conditions are
    checked in exactly the claimed order: (1) residual at most 1e-5 returns
    min(SH, TH) with P clamped to 0.85 before evaluating SH when P is at
    least 0.85; (2) a at least 0.85 returns min(SH(0.85), TH); (3) b at most
    0 returns min(SH(0), TH); (4) P at most 1e-9 returns min(SH(0), TH);
    (5) bracket width at most 1e-10 returns the missing marker;
    (6) otherwise the lower bound moves to P exactly when TH(P) < TH and
    the upper bound moves to P otherwise. -/
theorem get_SH_core_exit_order (f : ℝ → ℝ → ℝ → ℝ) (TH Sinh IN0 a b : ℝ) :
    (|func_TH ((a + b) / 2) IN0 Sinh (f ((a + b) / 2) IN0 Sinh) - TH| ≤ 1e-5 →
      bisectStep f TH Sinh IN0 a b =
        BisectOut.done
          (min (if 0.85 ≤ (a + b) / 2 then f 0.85 IN0 Sinh else f ((a + b) / 2) IN0 Sinh)
            TH)) ∧
    (¬ |func_TH ((a + b) / 2) IN0 Sinh (f ((a + b) / 2) IN0 Sinh) - TH| ≤ 1e-5 →
      0.85 ≤ a →
      bisectStep f TH Sinh IN0 a b = BisectOut.done (min (f 0.85 IN0 Sinh) TH)) ∧
    (¬ |func_TH ((a + b) / 2) IN0 Sinh (f ((a + b) / 2) IN0 Sinh) - TH| ≤ 1e-5 →
      ¬ 0.85 ≤ a → b ≤ 0 →
      bisectStep f TH Sinh IN0 a b = BisectOut.done (min (f 0 IN0 Sinh) TH)) ∧
    (¬ |func_TH ((a + b) / 2) IN0 Sinh (f ((a + b) / 2) IN0 Sinh) - TH| ≤ 1e-5 →
      ¬ 0.85 ≤ a → ¬ b ≤ 0 → (a + b) / 2 ≤ 1e-9 →
      bisectStep f TH Sinh IN0 a b = BisectOut.done (min (f 0 IN0 Sinh) TH)) ∧
    (¬ |func_TH ((a + b) / 2) IN0 Sinh (f ((a + b) / 2) IN0 Sinh) - TH| ≤ 1e-5 →
      ¬ 0.85 ≤ a → ¬ b ≤ 0 → ¬ (a + b) / 2 ≤ 1e-9 → |a - b| ≤ 1e-10 →
      bisectStep f TH Sinh IN0 a b = BisectOut.nanOut) ∧
    (¬ |func_TH ((a + b) / 2) IN0 Sinh (f ((a + b) / 2) IN0 Sinh) - TH| ≤ 1e-5 →
      ¬ 0.85 ≤ a → ¬ b ≤ 0 → ¬ (a + b) / 2 ≤ 1e-9 → ¬ |a - b| ≤ 1e-10 →
      func_TH ((a + b) / 2) IN0 Sinh (f ((a + b) / 2) IN0 Sinh) < TH →
      bisectStep f TH Sinh IN0 a b = BisectOut.cont ((a + b) / 2) b) ∧
    (¬ |func_TH ((a + b) / 2) IN0 Sinh (f ((a + b) / 2) IN0 Sinh) - TH| ≤ 1e-5 →
      ¬ 0.85 ≤ a → ¬ b ≤ 0 → ¬ (a + b) / 2 ≤ 1e-9 → ¬ |a - b| ≤ 1e-10 →
      ¬ func_TH ((a + b) / 2) IN0 Sinh (f ((a + b) / 2) IN0 Sinh) < TH →
      bisectStep f TH Sinh IN0 a b = BisectOut.cont a ((a + b) / 2)) := by
  have e10 : (1e-10 * 10 : ℝ) = 1e-9 := by norm_num
  unfold bisectStep
  rw [e10]
  refine ⟨?_, ?_, ?_, ?_, ?_, ?_, ?_⟩
  · intro h1
    rw [if_pos h1]
  · intro h1 h2
    rw [if_neg h1, if_pos h2]
  · intro h1 h2 h3
    rw [if_neg h1, if_neg h2, if_pos h3]
  · intro h1 h2 h3 h4
    rw [if_neg h1, if_neg h2, if_neg h3, if_pos h4]
  · intro h1 h2 h3 h4 h5
    rw [if_neg h1, if_neg h2, if_neg h3, if_neg h4, if_pos h5]
  · intro h1 h2 h3 h4 h5 h6
    rw [if_neg h1, if_neg h2, if_neg h3, if_neg h4, if_neg h5, if_pos h6]
  · intro h1 h2 h3 h4 h5 h6
    rw [if_neg h1, if_neg h2, if_neg h3, if_neg h4, if_neg h5, if_neg h6]

/-- Witness for the C5 theorem: a concrete iteration that satisfies the
    first exit condition. -/
theorem get_SH_core_exit_order_witness :
    |func_TH ((0 + 1.2) / 2) 1 1 ((fun _ _ _ => (0 : ℝ)) ((0 + 1.2) / 2) 1 1) - 0.6| ≤ 1e-5 ∧
      bisectStep (fun _ _ _ => (0 : ℝ)) 0.6 1 1 0 1.2 =
        BisectOut.done
          (min (if 0.85 ≤ ((0 : ℝ) + 1.2) / 2 then (fun _ _ _ => (0 : ℝ)) 0.85 1 1
            else (fun _ _ _ => (0 : ℝ)) ((0 + 1.2) / 2) 1 1) 0.6) := by
  have h1 : |func_TH ((0 + 1.2) / 2) 1 1 ((fun _ _ _ => (0 : ℝ)) ((0 + 1.2) / 2) 1 1) - 0.6|
      ≤ 1e-5 := by
    norm_num [func_TH, Real.rpow_one]
  exact ⟨h1, (get_SH_core_exit_order (fun _ _ _ => 0) 0.6 1 1 0 1.2).1 h1⟩


/-- C2 (amended): a missing TH propagates to both outputs for Erbs, Udagawa
    and Perez at every row, and for Nagata/Watanabe at rows with Sinh > 0;
    at rows with Sinh <= 0 the Nagata/Watanabe branch instead outputs
    SH = 0 (the Sinh test of get_SH precedes its NaN test), while DN stays
    missing. -/
theorem missing_TH_propagation (f : ℝ → ℝ → ℝ → ℝ) (Sinh IN0 : ℝ) (x : Option ℝ) :
    (0 < Sinh → nagwat_pair f none Sinh IN0 = (none, none)) ∧
    (Sinh ≤ 0 → nagwat_pair f none Sinh IN0 = (none, some 0)) ∧
    erbs_pair none IN0 Sinh = (none, none) ∧
    udagawa_pair none IN0 Sinh = (none, none) ∧
    derive_SH none x Sinh = none ∧
    (∀ (TH : List (Option ℝ)) (hcol : List ℝ) (TD : List (Option ℝ)) (ALT : ℝ)
        (IN0l : List ℝ) (i : ℕ) (G H : Option ℝ × Option ℝ × Option ℝ)
        (td : Option ℝ) (in0 : ℝ),
      windowG TH i = some G → windowH hcol TH.length i = some H →
      TH.get? i = some none → TD.get? i = some td → IN0l.get? i = some in0 →
      perez_row TH hcol TD ALT IN0l i = some none) := by
  refine ⟨?_, ?_, ?_, ?_, ?_, ?_⟩
  · intro hS
    simp [nagwat_pair, get_SH_row, derive_DN, olift2, floorNonpos, not_le.mpr hS]
  · intro hS
    simp [nagwat_pair, get_SH_row, derive_DN, olift2, floorNonpos, hS]
  · simp [erbs_pair, get_SH_Erbs_row, derive_DN, olift2, floorNonpos]
  · simp [udagawa_pair, get_DN_Udagawa_row, derive_SH, olift2, floorNonpos]
  · cases x <;> simp [derive_SH, olift2, floorNonpos]
  · intro TH hcol TD ALT IN0l i G H td in0 hG hH hth htd hin0
    unfold perez_row
    rw [hG, hH, hth, htd, hin0]

/-- Witness for the C2 amended theorem at a concrete row with Sinh > 0. -/
theorem missing_TH_propagation_witness :
    (0 : ℝ) < 1 ∧ nagwat_pair func_SH_Nagata none 1 1 = (none, none) :=
  ⟨by norm_num, (missing_TH_propagation func_SH_Nagata 1 1 none).1 (by norm_num)⟩

/-- C2 counterexample: for the Nagata model at a row with Sinh = -1/2 and a
    missing TH, the SH output is 0, not the missing marker, so missing TH is
    turned into 0 there, contrary to the claim. -/
theorem missing_TH_turned_zero_cex :
    nagwat_pair func_SH_Nagata none (-(1 / 2) : ℝ) 1 = (none, some 0) := by
  norm_num [nagwat_pair, get_SH_row, derive_DN, olift2, floorNonpos]

/-- C1 (amended): whenever the complementary quantity produced by the
    derivation step of get_separate is nonnegative before the flooring
    mask, the energy-balance identity TH = DN * Sinh + SH holds exactly
    (hence within 1e-4) in both directions of the derivation. -/
theorem energy_identity_unfloored (t s d Sinh : ℝ) (hS : Sinh ≠ 0) :
    (0 ≤ func_DN t s Sinh →
      ∃ dv, derive_DN (some t) (some s) Sinh = some dv ∧ t = dv * Sinh + s) ∧
    (0 ≤ func_SH t d Sinh →
      ∃ sv, derive_SH (some t) (some d) Sinh = some sv ∧ t = d * Sinh + sv) := by
  constructor
  · intro hdn
    by_cases hz : func_DN t s Sinh ≤ 0
    · refine ⟨0, ?_, ?_⟩
      · simp [derive_DN, olift2, floorNonpos, hz]
      · have h0 : (t - s) / Sinh = 0 := le_antisymm hz hdn
        rcases div_eq_zero_iff.mp h0 with h | h
        · linarith
        · exact absurd h hS
    · refine ⟨func_DN t s Sinh, ?_, ?_⟩
      · simp [derive_DN, olift2, floorNonpos, hz]
      · unfold func_DN
        field_simp
  · intro hsh
    by_cases hz : func_SH t d Sinh ≤ 0
    · refine ⟨0, ?_, ?_⟩
      · simp [derive_SH, olift2, floorNonpos, hz]
      · have h0 : t - d * Sinh = 0 := le_antisymm hz hsh
        linarith
    · refine ⟨func_SH t d Sinh, ?_, ?_⟩
      · simp [derive_SH, olift2, floorNonpos, hz]
      · unfold func_SH
        ring

/-- Witness for the C1 amended theorem at a concrete row. -/
theorem energy_identity_unfloored_witness :
    ((1 : ℝ) ≠ 0 ∧ 0 ≤ func_DN 1 (1 / 2) 1) ∧
      ∃ dv, derive_DN (some 1) (some (1 / 2)) 1 = some dv ∧ (1 : ℝ) = dv * 1 + 1 / 2 :=
  ⟨⟨by norm_num, by norm_num [func_DN]⟩,
    (energy_identity_unfloored 1 (1 / 2) 0 1 (by norm_num)).1 (by norm_num [func_DN])⟩

/-- C1 counterexample: for the Udagawa model at TH = 2.45, IN0 = 4.9,
    Sinh = 0.5 (a row with Sinh > 0 and TH present), the derived SH is
    floored at 0 and the identity TH = DN * Sinh + SH fails by about 1.73,
    far beyond the tolerance 1e-4. -/
theorem energy_identity_floored_cex :
    udagawa_pair (some (49 / 20)) (49 / 10) (1 / 2) = (some (836871 / 100000), some 0) ∧
      ¬ |(49 / 20 : ℝ) - (836871 / 100000 * (1 / 2) + 0)| ≤ 1e-4 := by
  constructor
  · norm_num [udagawa_pair, get_DN_Udagawa_row, derive_SH, olift2, floorNonpos, func_KT,
      func_DN_Udagawa_3d, func_SH, min_def, max_def]
  · rw [abs_of_nonpos (by norm_num)]
    norm_num


/-- C8 (amended): at the branch boundaries the Erbs polynomials do not
    agree to floating rounding tolerance; the gaps are exactly
    0.00027240384 times |TH| at KT = 0.22 and 0.0002696 times |TH| at
    KT = 0.80, both below the relative ratio 3e-4. -/
theorem erbs_boundary_gap (TH : ℝ) :
    |func_SH_Erbs_1d_022 TH 0.22 - func_SH_Erbs_4d TH 0.22| = 27240384 / 10 ^ 11 * |TH| ∧
    |func_SH_Erbs_4d TH 0.8 - func_SH_Erbs_1d_080 TH| = 337 / 1250000 * |TH| ∧
    (27240384 / 10 ^ 11 : ℝ) < 3 / 10000 ∧ (337 / 1250000 : ℝ) < 3 / 10000 := by
  refine ⟨?_, ?_, by norm_num, by norm_num⟩
  · have e1 : func_SH_Erbs_1d_022 TH 0.22 - func_SH_Erbs_4d TH 0.22 =
        27240384 / 10 ^ 11 * TH := by
      unfold func_SH_Erbs_1d_022 func_SH_Erbs_4d
      ring_nf
    rw [e1, abs_mul, abs_of_pos (show (0 : ℝ) < 27240384 / 10 ^ 11 by norm_num)]
  · have e2 : func_SH_Erbs_4d TH 0.8 - func_SH_Erbs_1d_080 TH = 337 / 1250000 * TH := by
      unfold func_SH_Erbs_4d func_SH_Erbs_1d_080
      ring_nf
    rw [e2, abs_mul, abs_of_pos (show (0 : ℝ) < 337 / 1250000 by norm_num)]

/-- C8 counterexample: at TH = 1 the two boundary gaps both exceed 1e-5, so
    the piecewise Erbs definition is not continuous to floating tolerance at
    either boundary. -/
theorem erbs_boundary_cex :
    ¬ |func_SH_Erbs_1d_022 1 0.22 - func_SH_Erbs_4d 1 0.22| ≤ 1e-5 ∧
    ¬ |func_SH_Erbs_4d 1 0.8 - func_SH_Erbs_1d_080 1| ≤ 1e-5 := by
  constructor
  · have e1 : func_SH_Erbs_1d_022 1 0.22 - func_SH_Erbs_4d 1 0.22 = 27240384 / 10 ^ 11 := by
      unfold func_SH_Erbs_1d_022 func_SH_Erbs_4d
      norm_num
    rw [e1, abs_of_pos (show (0 : ℝ) < 27240384 / 10 ^ 11 by norm_num)]
    norm_num
  · have e2 : func_SH_Erbs_4d 1 0.8 - func_SH_Erbs_1d_080 1 = 337 / 1250000 := by
      unfold func_SH_Erbs_4d func_SH_Erbs_1d_080
      norm_num
    rw [e2, abs_of_pos (show (0 : ℝ) < 337 / 1250000 by norm_num)]
    norm_num

/-- C4 (amended): for every mode string outside the five recognized names,
    get_separate raises no error at all: it silently performs no separation
    and returns without DN or SH columns. -/
theorem unknown_mode_no_columns (mode : String)
    (h1 : mode ≠ "Nagata") (h2 : mode ≠ "Watanabe") (h3 : mode ≠ "Erbs")
    (h4 : mode ≠ "Udagawa") (h5 : mode ≠ "Perez") (TH : List (Option ℝ))
    (hcol Sinh IN0 : List ℝ) (DT : List (Option ℝ)) (ALT : ℝ) :
    get_separate_cols mode TH hcol Sinh IN0 DT ALT = some SepOut.nothing := by
  unfold get_separate_cols
  rw [if_neg (not_or.mpr ⟨h1, h2⟩), if_neg h3, if_neg h4, if_neg h5]

/-- Witness for the C4 amended theorem at a concrete unrecognized mode. -/
theorem unknown_mode_no_columns_witness :
    (("Foo" : String) ≠ "Nagata" ∧ ("Foo" : String) ≠ "Watanabe" ∧
      ("Foo" : String) ≠ "Erbs" ∧ ("Foo" : String) ≠ "Udagawa" ∧
      ("Foo" : String) ≠ "Perez") ∧
      get_separate_cols "Foo" [some 1] [1] [1] [1] [none] 0 = some SepOut.nothing :=
  ⟨⟨by decide, by decide, by decide, by decide, by decide⟩,
    unknown_mode_no_columns "Foo" (by decide) (by decide) (by decide) (by decide)
      (by decide) [some 1] [1] [1] [1] [none] 0⟩

/-- C4 counterexample: with the unrecognized mode string Foo, get_separate
    returns normally with no DN or SH columns and raises nothing; there is
    no ConfigurationError anywhere in the module. -/
theorem unknown_mode_silent_cex :
    get_separate_cols "Abc" [some 1] [1] [1] [1] [none] 0 = some SepOut.nothing := by
  unfold get_separate_cols
  rw [if_neg (by decide), if_neg (by decide), if_neg (by decide), if_neg (by decide)]


lemma digitize_le (x : Option ℝ) (bins : List ℝ) : digitize x bins ≤ bins.length := by
  cases x
  · simp [digitize]
  · simpa [digitize] using List.length_filter_le _ bins

set_option maxRecDepth 4000 in
lemma CMflat_length : CMflat.length = 1260 := rfl

lemma CMlookup_ne_none (x z : Option ℝ) (K L : ℕ) (hK : K ≤ 6) (hL : L ≤ 4) :
    CMlookup (digitize x KTBIN) (digitize z ZBIN) K L ≠ none := by
  have hI : digitize x KTBIN < 6 := by
    have h1 := digitize_le x KTBIN
    have h2 : KTBIN.length = 5 := rfl
    omega
  have hJ : digitize z ZBIN < 6 := by
    have h1 := digitize_le z ZBIN
    have h2 : ZBIN.length = 5 := rfl
    omega
  unfold CMlookup
  rw [if_pos ⟨hI, hJ, by omega, by omega⟩]
  intro hnone
  rw [List.get?_eq_none, CMflat_length] at hnone
  omega

lemma ite_digitize_le (c : Prop) [Decidable c] (d : Option ℝ) :
    (if c then 6 else digitize d DKTBIN) ≤ 6 := by
  split
  · exact le_refl 6
  · have h1 := digitize_le d DKTBIN
    have h2 : DKTBIN.length = 5 := rfl
    omega

lemma match_TD_le (TD : Option ℝ) :
    (match TD with
      | none => 4
      | some td => digitize (some (Real.exp (-0.075 + 0.07 * td))) WBIN) ≤ 4 := by
  cases TD with
  | none => exact le_refl 4
  | some td =>
    show digitize (some (Real.exp (-0.075 + 0.07 * td))) WBIN ≤ 4
    have h1 := digitize_le (some (Real.exp (-0.075 + 0.07 * td))) WBIN
    have h2 : WBIN.length = 3 := rfl
    omega

lemma perez_core_ne_none (G0 G1 G2 h0 h1 h2 TD : Option ℝ) (ALT IN0 : ℝ) :
    get_DN_perez_core G0 G1 G2 h0 h1 h2 TD ALT IN0 ≠ none := by
  unfold get_DN_perez_core
  cases G1 with
  | none => simp
  | some g1 =>
    dsimp only
    by_cases hg : MJ_to_W g1 < 1
    · rw [if_pos hg]
      simp
    rw [if_neg hg]
    by_cases hh : isLE h1 0
    · rw [if_pos hh]
      simp
    rw [if_neg hh]
    intro hfalse
    split at hfalse
    · exact Option.noConfusion hfalse
    · split at hfalse
      · rename_i heq
        exact CMlookup_ne_none _ _ _ _ (ite_digitize_le _ _) (match_TD_le TD) heq
      · split at hfalse
        · exact Option.noConfusion hfalse
        · exact Option.noConfusion hfalse

/-- C9: for every input window, the four coefficient indices computed by
    get_DN_perez_core are in bounds for the 6 x 6 x 7 x 5 table, so the
    lookup CM[I, J, K, L] never raises: the core never produces the
    IndexError marker, whatever the inputs. I and J come from digitize over
    five thresholds, so are at most 5; K is the fixed fallback 6 or a
    digitize over five thresholds; L is the fixed fallback 4 or a digitize
    over three thresholds. -/
theorem perez_core_lookup_in_bounds (G0 G1 G2 h0 h1 h2 TD : Option ℝ) (ALT IN0 : ℝ) :
    (get_DN_perez_core G0 G1 G2 h0 h1 h2 TD ALT IN0).isSome :=
  Option.isSome_iff_ne_none.mpr (perez_core_ne_none G0 G1 G2 h0 h1 h2 TD ALT IN0)

lemma get?_ne_none_of_lt {α : Type} (l : List α) (k : ℕ) (h : k < l.length) :
    l.get? k ≠ none := by
  intro hk
  rw [List.get?_eq_none] at hk
  omega

lemma windowG_isSome (TH : List (Option ℝ)) (i : ℕ) (h2 : 2 ≤ TH.length)
    (hi : i < TH.length) : windowG TH i ≠ none := by
  unfold windowG
  by_cases h0 : i = 0
  · subst h0
    rw [if_pos rfl]
    cases hc : TH.get? 0 with
    | none => exact absurd hc (get?_ne_none_of_lt TH 0 (by omega))
    | some c =>
      cases hn : TH.get? (0 + 1) with
      | none => exact absurd hn (get?_ne_none_of_lt TH (0 + 1) (by omega))
      | some n => simp
  · rw [if_neg h0]
    by_cases h1 : i = TH.length - 1
    · rw [if_pos h1]
      cases hp : TH.get? (i - 1) with
      | none => exact absurd hp (get?_ne_none_of_lt TH (i - 1) (by omega))
      | some p =>
        cases hc : TH.get? i with
        | none => exact absurd hc (get?_ne_none_of_lt TH i hi)
        | some c => simp
    · rw [if_neg h1]
      cases hp : TH.get? (i - 1) with
      | none => exact absurd hp (get?_ne_none_of_lt TH (i - 1) (by omega))
      | some p =>
        cases hc : TH.get? i with
        | none => exact absurd hc (get?_ne_none_of_lt TH i hi)
        | some c =>
          cases hn : TH.get? (i + 1) with
          | none => exact absurd hn (get?_ne_none_of_lt TH (i + 1) (by omega))
          | some n => simp

lemma windowH_isSome (hcol : List ℝ) (n i : ℕ) (h2 : 2 ≤ n) (hlen : n = hcol.length)
    (hi : i < n) : windowH hcol n i ≠ none := by
  unfold windowH
  by_cases h0 : i = 0
  · subst h0
    rw [if_pos rfl]
    cases hc : hcol.get? 0 with
    | none => exact absurd hc (get?_ne_none_of_lt hcol 0 (by omega))
    | some c =>
      cases hn : hcol.get? (0 + 1) with
      | none => exact absurd hn (get?_ne_none_of_lt hcol (0 + 1) (by omega))
      | some nx => simp
  · rw [if_neg h0]
    by_cases h1 : i = n - 1
    · rw [if_pos h1]
      cases hp : hcol.get? (i - 1) with
      | none => exact absurd hp (get?_ne_none_of_lt hcol (i - 1) (by omega))
      | some p =>
        cases hc : hcol.get? i with
        | none => exact absurd hc (get?_ne_none_of_lt hcol i (by omega))
        | some c => simp
    · rw [if_neg h1]
      cases hp : hcol.get? (i - 1) with
      | none => exact absurd hp (get?_ne_none_of_lt hcol (i - 1) (by omega))
      | some p =>
        cases hc : hcol.get? i with
        | none => exact absurd hc (get?_ne_none_of_lt hcol i (by omega))
        | some c =>
          cases hn : hcol.get? (i + 1) with
          | none => exact absurd hn (get?_ne_none_of_lt hcol (i + 1) (by omega))
          | some nx => simp

lemma perez_row_ne_none (TH : List (Option ℝ)) (hcol : List ℝ) (TD : List (Option ℝ))
    (ALT : ℝ) (IN0 : List ℝ) (i : ℕ) (h2 : 2 ≤ TH.length)
    (hh : TH.length = hcol.length) (ht : TH.length = TD.length)
    (hn : TH.length = IN0.length) (hi : i < TH.length) :
    perez_row TH hcol TD ALT IN0 i ≠ none := by
  unfold perez_row
  cases hG : windowG TH i with
  | none => exact absurd hG (windowG_isSome TH i h2 hi)
  | some G =>
    cases hH : windowH hcol TH.length i with
    | none => exact absurd hH (windowH_isSome hcol TH.length i h2 hh hi)
    | some H =>
      cases hth : TH.get? i with
      | none => exact absurd hth (get?_ne_none_of_lt TH i hi)
      | some thi =>
        cases htd : TD.get? i with
        | none => exact absurd htd (get?_ne_none_of_lt TD i (by omega))
        | some td =>
          cases hin : IN0.get? i with
          | none => exact absurd hin (get?_ne_none_of_lt IN0 i (by omega))
          | some in0 =>
            cases thi with
            | none => simp
            | some tval => exact perez_core_ne_none _ _ _ _ _ _ _ _ _

lemma perez_go_ne_none (TH : List (Option ℝ)) (hcol : List ℝ) (TD : List (Option ℝ))
    (ALT : ℝ) (IN0 : List ℝ) :
    ∀ (idxs : List ℕ), (∀ i ∈ idxs, perez_row TH hcol TD ALT IN0 i ≠ none) →
      perez_go TH hcol TD ALT IN0 idxs ≠ none := by
  intro idxs
  induction idxs with
  | nil =>
    intro _
    simp [perez_go]
  | cons i rest ih =>
    intro hall
    unfold perez_go
    cases hr : perez_row TH hcol TD ALT IN0 i with
    | none => exact absurd hr (hall i (List.mem_cons_self i rest))
    | some r =>
      cases hg : perez_go TH hcol TD ALT IN0 rest with
      | none => exact absurd hg (ih fun j hj => hall j (List.mem_cons_of_mem i hj))
      | some rs => simp

/-- C10: the neighbour accesses of get_DN_perez are in range for every
    input series of length at least two (with aligned column lengths), but
    on a one-row series the first-row branch reads index 1: the window
    build fails and the batch entry point raises, so a series of at least
    two rows is an unstated precondition. -/
theorem get_DN_perez_window_access :
    (∀ (TH : List (Option ℝ)) (hcol : List ℝ) (TD : List (Option ℝ)) (ALT : ℝ)
        (IN0 : List ℝ), 2 ≤ TH.length → TH.length = hcol.length →
        TH.length = TD.length → TH.length = IN0.length →
        (get_DN_perez_list TH hcol TD ALT IN0).isSome) ∧
    (∀ (th td : Option ℝ) (hv ALT in0 : ℝ),
        windowG [th] 0 = none ∧ get_DN_perez_list [th] [hv] [td] ALT [in0] = none) := by
  constructor
  · intro TH hcol TD ALT IN0 h2 hh ht hn
    rw [Option.isSome_iff_ne_none]
    unfold get_DN_perez_list
    exact perez_go_ne_none TH hcol TD ALT IN0 (List.range TH.length)
      (fun i hi => perez_row_ne_none TH hcol TD ALT IN0 i h2 hh ht hn
        (List.mem_range.mp hi))
  · intro th td hv ALT in0
    exact ⟨rfl, rfl⟩

/-- Witness for the C10 theorem on a concrete two-row series. -/
theorem get_DN_perez_window_access_witness :
    (2 ≤ ([some 0, some 0] : List (Option ℝ)).length ∧
      ([some 0, some 0] : List (Option ℝ)).length = ([1, 1] : List ℝ).length ∧
      ([some 0, some 0] : List (Option ℝ)).length =
        ([none, none] : List (Option ℝ)).length ∧
      ([some 0, some 0] : List (Option ℝ)).length = ([1, 1] : List ℝ).length) ∧
      (get_DN_perez_list [some 0, some 0] [1, 1] [none, none] 0 [1, 1]).isSome :=
  ⟨⟨by simp, by simp, by simp, by simp⟩,
    get_DN_perez_window_access.1 [some 0, some 0] [1, 1] [none, none] 0 [1, 1]
      (by simp) (by simp) (by simp) (by simp)⟩

/-- C6: get_DN_perez_core returns 0 whenever the present current-hour
    irradiance converts to less than 1 W/m2, and returns 0 whenever the
    current-hour altitude is at most 0 degrees, regardless of the other
    irradiance values in the window. -/
theorem perez_core_low_sun_zero (G0 G1 G2 h0 h1 h2 TD : Option ℝ) (g1 hv ALT IN0 : ℝ) :
    (MJ_to_W g1 < 1 →
      get_DN_perez_core G0 (some g1) G2 h0 h1 h2 TD ALT IN0 = some (some 0)) ∧
    (hv ≤ 0 → get_DN_perez_core G0 G1 G2 h0 (some hv) h2 TD ALT IN0 = some (some 0)) := by
  constructor
  · intro hg
    unfold get_DN_perez_core
    dsimp only
    rw [if_pos hg]
  · intro hh
    unfold get_DN_perez_core
    cases G1 with
    | none => rfl
    | some g =>
      dsimp only
      by_cases hg : MJ_to_W g < 1
      · rw [if_pos hg]
      · rw [if_neg hg, if_pos ⟨hv, rfl, hh⟩]

/-- Witness for the C6 theorem at a concrete window. -/
theorem perez_core_low_sun_zero_witness :
    MJ_to_W 0 < 1 ∧
      get_DN_perez_core none (some 0) none none none none none 0 1 = some (some 0) :=
  ⟨by norm_num [MJ_to_W],
    (perez_core_low_sun_zero none none none none none none none 0 0 0 1).1
      (by norm_num [MJ_to_W])⟩

end
